import Mathlib

/-!
Verification of the Task Master AI client core
(`openai-compatible-client.js`, `ai-unified-client.js`).

The JavaScript source works on untyped values, so the embedding models the
relevant fragment of JavaScript data: `JSValue` covers the JSON-like values
that flow through the client (strings, numbers as integers, booleans,
`null`, `undefined`, arrays, plain objects).  Property access on `null` or
`undefined` throws a `TypeError` in JavaScript; functions that may perform
such an access return `Option`, with `none` standing for the thrown
`TypeError`.  JavaScript numeric strings from the environment
(`MAX_TOKENS`, `TEMPERATURE`) are modelled post-parse (as `Int` and `ℚ`);
`NaN` and fractional string parsing are outside the modelled fragment and
are not exercised by any claim.
-/

set_option autoImplicit false

inductive JSValue where
  | str (s : String)
  | num (n : Int)
  | bool (b : Bool)
  | null
  | undefined
  | arr (elems : List JSValue)
  | obj (props : List (String × JSValue))

/-- Property lookup in an object's property list (missing keys give
JavaScript `undefined`). -/
def lookupProp : List (String × JSValue) → String → JSValue
  | [], _ => .undefined
  | (k, v) :: rest, key => if k = key then v else lookupProp rest key

/-- JavaScript property access `v[key]` for the keys used by the client
(`role`, `content`, `system`, `messages`, `message`, ...).  Access on
`null`/`undefined` throws (`none`); primitives and arrays have none of
these properties, giving `undefined`. -/
def getProp : JSValue → String → Option JSValue
  | .null, _ => none
  | .undefined, _ => none
  | .obj props, key => some (lookupProp props key)
  | _, _ => some .undefined

/-- Property access on a value already known not to be `null`/`undefined`. -/
def getPropD (v : JSValue) (key : String) : JSValue :=
  (getProp v key).getD .undefined

/-- JavaScript truthiness. -/
def truthy : JSValue → Bool
  | .str s => s ≠ ""
  | .num n => n ≠ 0
  | .bool b => b
  | .null => false
  | .undefined => false
  | .arr _ => true
  | .obj _ => true

/-- A `\x7b role, content \x7d` message object as the client builds them. -/
def mkMsg (role content : JSValue) : JSValue :=
  .obj [("role", role), ("content", content)]

/-- One character of JSON string escaping. -/
def escapeChar (c : Char) : String :=
  if c = '"' then "\\\"" else if c = '\\' then "\\\\" else String.mk [c]

/-- JSON string escaping (quotes and backslashes; control characters do not
occur in the modelled inputs). -/
def escapeJson (s : String) : String :=
  String.join (s.data.map escapeChar)

mutual

/-- Model of `JSON.stringify`.  `undefined` only occurs here inside arrays
(where `JSON.stringify` renders `null`) or as an object property value
(omitted); a top-level `undefined` never reaches `JSON.stringify` in the
client. -/
def jsonStringify : JSValue → String
  | .str s => "\"" ++ escapeJson s ++ "\""
  | .num n => toString n
  | .bool b => if b then "true" else "false"
  | .null => "null"
  | .undefined => "null"
  | .arr elems => "[" ++ stringifyElems elems ++ "]"
  | .obj props => "\x7b" ++ stringifyProps props ++ "\x7d"

/-- Comma-joined rendering of array elements. -/
def stringifyElems : List JSValue → String
  | [] => ""
  | [v] => jsonStringify v
  | v :: rest => jsonStringify v ++ "," ++ stringifyElems rest

/-- Comma-joined rendering of object properties; `undefined`-valued
properties are omitted, as `JSON.stringify` does. -/
def stringifyProps : List (String × JSValue) → String
  | [] => ""
  | (k, v) :: rest =>
    match v with
    | .undefined => stringifyProps rest
    | _ =>
      let tail := stringifyProps rest
      "\"" ++ escapeJson k ++ "\":" ++ jsonStringify v ++
        (if tail = "" then "" else ",") ++ tail

end

/-- The alternating-role mapping of
`messages.map((message, index) => (\x7b role: index % 2 === 0 ? 'user' : 'assistant', content: message \x7d))`
starting at index `i`. -/
def altRoles (i : Nat) : List JSValue → List JSValue
  | [] => []
  | m :: rest =>
    mkMsg (.str (if i % 2 = 0 then "user" else "assistant")) m :: altRoles (i + 1) rest

/-- JavaScript strict equality `v === s` against a string literal. -/
def jsStrictEqStr (v : JSValue) (s : String) : Bool :=
  match v with
  | .str t => t = s
  | _ => false

/-- Role mapping inside the `system`/`messages` branch of
`convertToOpenAIMessages`:
`msg.role === 'human' ? 'user' : msg.role === 'assistant' ? 'assistant' : msg.role`. -/
def mapOpenAIRole (r : JSValue) : JSValue :=
  if jsStrictEqStr r "human" then .str "user"
  else if jsStrictEqStr r "assistant" then .str "assistant"
  else r

/-- The `messages.messages.forEach` loop of `convertToOpenAIMessages`:
keeps messages whose `role` and `content` are truthy, applying the role
mapping.  Accessing `msg.role` on a `null`/`undefined` element throws. -/
def convertInner : List JSValue → Option (List JSValue)
  | [] => some []
  | m :: rest =>
    match getProp m "role" with
    | none => none
    | some r =>
      if truthy r then
        match getProp m "content" with
        | none => none
        | some c =>
          if truthy c then
            match convertInner rest with
            | none => none
            | some tail => some (mkMsg (mapOpenAIRole r) c :: tail)
          else convertInner rest
      else convertInner rest

/-- `convertToOpenAIMessages(messages)` from `openai-compatible-client.js`.
`none` models a thrown `TypeError` (property access on `null`/`undefined`). -/
def convertToOpenAIMessages (messages : JSValue) : Option JSValue :=
  match messages with
  | .str s => some (.arr [mkMsg (.str "user") (.str s)])
  | .arr [] => some (.arr (altRoles 0 []))
  | .arr (first :: rest) =>
    match getProp first "role" with
    | none => none
    | some r =>
      if truthy r then
        match getProp first "content" with
        | none => none
        | some c =>
          if truthy c then some (.arr (first :: rest))
          else some (.arr (altRoles 0 (first :: rest)))
      else some (.arr (altRoles 0 (first :: rest)))
  | v =>
    match getProp v "role" with
    | none => none
    | some r =>
      if truthy r && truthy (getPropD v "content") then some (.arr [v])
      else
        if truthy (getPropD v "system") && truthy (getPropD v "messages") then
          let sys := getPropD v "system"
          let sysPart := if truthy sys then [mkMsg (.str "system") sys] else []
          match getPropD v "messages" with
          | .arr inner =>
            match convertInner inner with
            | none => none
            | some turns => some (.arr (sysPart ++ turns))
          | _ => some (.arr (sysPart ++ []))
        else
          some (.arr [mkMsg (.str "user") (.str (jsonStringify v))])

/-! ### Environment configuration and invocation options -/

/-- Environment variables read by the client.  String-valued variables are
`Option String` (absent = `undefined`); the numeric variables `MAX_TOKENS`
and `TEMPERATURE` are modelled post-`parseInt`/`parseFloat`. -/
structure Env where
  OPENAI_API_BASE_URL : Option String
  OPENAI_API_KEY : Option String
  ANTHROPIC_API_KEY : Option String
  AI_PROVIDER : Option String
  MODEL : Option String
  MAX_TOKENS : Option Int
  TEMPERATURE : Option ℚ

/-- `options` object of `invokeAIModel` / `invokeOpenAICompatibleChat`. -/
structure Options where
  model : Option String
  maxTokens : Option Int
  temperature : Option ℚ
  provider : Option String

/-- Truthiness of an optional environment/option string
(absent or empty is falsy). -/
def optTruthy : Option String → Bool
  | none => false
  | some s => s ≠ ""

/-- Rendering of an environment variable inside a template literal
(`undefined` when absent). -/
def envStr : Option String → String
  | none => "undefined"
  | some s => s

/-- `parseInt(process.env.MAX_TOKENS || '64000')` with the environment
value modelled post-parse. -/
def envMaxTokens (env : Env) : Int :=
  env.MAX_TOKENS.getD 64000

/-- `parseFloat(process.env.TEMPERATURE || '0.2')` with the environment
value modelled post-parse. -/
def envTemperature (env : Env) : ℚ :=
  env.TEMPERATURE.getD (0.2 : ℚ)

/-- JavaScript `a || b` on an optional numeric option value: `0` (and
absence) falls through to the default. -/
def numOr (opt : Option Int) (dflt : Int) : Int :=
  match opt with
  | none => dflt
  | some v => if v = 0 then dflt else v

/-- JavaScript `a || b` on an optional rational option value. -/
def ratOr (opt : Option ℚ) (dflt : ℚ) : ℚ :=
  match opt with
  | none => dflt
  | some v => if v = 0 then dflt else v

/-- JavaScript `a || b` on optional strings. -/
def strOr (a b : Option String) : Option String :=
  if optTruthy a then a else b

/-! ### GenericChat (OpenAI-compatible) client -/

/-- Request payload of `invokeOpenAICompatibleChat`. -/
structure OpenAIPayload where
  model : Option String
  messages : JSValue
  max_tokens : Int
  temperature : ℚ

/-- Payload construction in `invokeOpenAICompatibleChat`:
`model: options.model || process.env.MODEL`,
`max_tokens: options.maxTokens || parseInt(process.env.MAX_TOKENS || '64000')`,
`temperature: options.temperature || parseFloat(process.env.TEMPERATURE || '0.2')`. -/
def mkOpenAIPayload (messages : JSValue) (options : Options) (env : Env) : OpenAIPayload :=
  { model := strOr options.model env.MODEL
    messages := messages
    max_tokens := numOr options.maxTokens (envMaxTokens env)
    temperature := ratOr options.temperature (envTemperature env) }

/-- `.length` property of a JavaScript value. -/
def lengthOf : JSValue → JSValue
  | .arr elems => .num elems.length
  | .str s => .num s.length
  | .obj props => lookupProp props "length"
  | _ => .undefined

/-- JavaScript `ToNumber` on the modelled fragment (`none` = `NaN`;
string/array coercions beyond integer literals are outside the modelled
fragment and map to `NaN`). -/
def jsToNumber : JSValue → Option Int
  | .num n => some n
  | .bool b => some (if b then 1 else 0)
  | .null => some 0
  | _ => none

/-- JavaScript `v > 0`. -/
def jsGtZero (v : JSValue) : Bool :=
  match jsToNumber v with
  | some n => 0 < n
  | none => false

/-- Indexing `v[0]`. -/
def jsIndex0 : JSValue → JSValue
  | .arr (a :: _) => a
  | .arr [] => .undefined
  | .str s =>
    match s.data with
    | c :: _ => .str (String.mk [c])
    | [] => .undefined
  | .obj props => lookupProp props "0"
  | _ => .undefined

/-- Whitespace characters removed by `String.prototype.trim` (the modelled
set; JavaScript also trims a few rarer code points). -/
def isJsWS (c : Char) : Bool :=
  c = ' ' || c = '\t' || c = '\n' || c = '\r'

/-- Model of JavaScript `String.prototype.trim`. -/
def jsTrim (s : String) : String :=
  String.mk (((s.data.dropWhile isJsWS).reverse.dropWhile isJsWS).reverse)

/-- Outcome of the response-extraction block of `invokeOpenAICompatibleChat`
on a 2xx response body:
`ok` for a returned string, `malformed` for the thrown
`'Unexpected API response format'` error, `typeErr` for a `TypeError`
raised while evaluating the guard chain (e.g. `choices[0].message` when
`choices[0]` is `null`).  Both error outcomes are re-thrown by the `catch`
block as `'Error setting up request: ...'` (the error has neither
`response` nor `request`). -/
inductive ChatParse where
  | ok (s : String)
  | malformed
  | typeErr
  deriving DecidableEq

/-- The guard chain and extraction
`response.data && response.data.choices && response.data.choices.length > 0 && response.data.choices[0].message && response.data.choices[0].message.content`
followed by `return response.data.choices[0].message.content.trim()`,
else `throw new Error('Unexpected API response format')`. -/
def parseChatResponse (data : JSValue) : ChatParse :=
  if truthy data then
    if truthy (getPropD data "choices") then
      if jsGtZero (lengthOf (getPropD data "choices")) then
        match getProp (jsIndex0 (getPropD data "choices")) "message" with
        | none => .typeErr
        | some msg =>
          if truthy msg then
            match getProp msg "content" with
            | none => .typeErr
            | some content =>
              if truthy content then
                match content with
                | .str s => .ok (jsTrim s)
                | _ => .typeErr
              else .malformed
          else .malformed
      else .malformed
    else .malformed
  else .malformed

/-- The raw value sitting at `data.choices[0].message.content`, read with
throw-free accessors (used to state what a successful parse returns). -/
def rawContent (data : JSValue) : JSValue :=
  getPropD (getPropD (jsIndex0 (getPropD data "choices")) "message") "content"

/-- `` `API error (${status}): ${JSON.stringify(data)}` `` from the
`error.response` branch of `invokeOpenAICompatibleChat`. -/
def apiErrorMessage (status : Int) (dataStr : String) : String :=
  "API error (" ++ toString status ++ "): " ++ dataStr

/-- `needle` occurs as a contiguous substring of `hay`
(JavaScript `String.prototype.includes`). -/
def strContains (hay needle : String) : Bool :=
  go hay.data
where
  go : List Char → Bool
    | [] => needle.data.isEmpty
    | c :: rest => needle.data.isPrefixOf (c :: rest) || go rest

/-- `handleOpenAICompatibleError(error)` from
`openai-compatible-client.js`, as a function of `error.message` and the
environment. -/
def handleOpenAICompatibleError (errMsg : String) (env : Env) : String :=
  if strContains errMsg "Network error" then
    "Connection error: Unable to reach the AI service at " ++
      envStr env.OPENAI_API_BASE_URL ++
      ". Please check that your server is running and the URL is correct."
  else if strContains errMsg "401" || strContains errMsg "403" then
    "Authentication error: The API key provided is invalid or missing. Please check your OPENAI_API_KEY."
  else if strContains errMsg "model" then
    "Model error: The requested model \x27" ++ envStr env.MODEL ++
      "\x27 may not be available. Please check that you have the correct model name."
  else
    "Error communicating with AI service: " ++ errMsg

/-- The Anthropic branch of `invokeAIModel`'s `catch` block:
`` `Anthropic API error: ${error.message}` `` (no classification). -/
def anthropicErrorMessage (errMsg : String) : String :=
  "Anthropic API error: " ++ errMsg

/-! ### Provider selection (`ai-unified-client.js`) -/

/-- `determineAIProvider()`: returns the provider string together with the
level of the log line it emits (`info` or `warn`). -/
def determineAIProvider (env : Env) : String × String :=
  if optTruthy env.OPENAI_API_BASE_URL then ("openai_compatible", "info")
  else if optTruthy env.ANTHROPIC_API_KEY then ("anthropic", "info")
  else ("openai_compatible", "warn")

/-- `options.provider || process.env.AI_PROVIDER || determineAIProvider()`
(the provider expression of `invokeAIModel` and `createAIClient`). -/
def selectProvider (optProvider : Option String) (env : Env) : String :=
  match optProvider with
  | some p => if p ≠ "" then p else
    match env.AI_PROVIDER with
    | some q => if q ≠ "" then q else (determineAIProvider env).1
    | none => (determineAIProvider env).1
  | none =>
    match env.AI_PROVIDER with
    | some q => if q ≠ "" then q else (determineAIProvider env).1
    | none => (determineAIProvider env).1

/-! ### Anthropic branch of `invokeAIModel` -/

/-- `messages.find((m) => m.role === 'system')`; outer `none` models the
`TypeError` thrown when the callback reads `.role` of a `null`/`undefined`
element before any match. -/
def jsFindSystemRole : List JSValue → Option (Option JSValue)
  | [] => some none
  | m :: rest =>
    match getProp m "role" with
    | none => none
    | some r =>
      if jsStrictEqStr r "system" then some (some m)
      else jsFindSystemRole rest

/-- `messages.filter((m) => m.role !== 'system').map((m) => (\x7b role: m.role === 'user' ? 'human' : 'assistant', content: m.content \x7d))`. -/
def anthTurns : List JSValue → Option (List JSValue)
  | [] => some []
  | m :: rest =>
    match getProp m "role" with
    | none => none
    | some r =>
      if jsStrictEqStr r "system" then anthTurns rest
      else
        match getProp m "content" with
        | none => none
        | some c =>
          match anthTurns rest with
          | none => none
          | some tail =>
            some (mkMsg (if jsStrictEqStr r "user" then .str "human"
              else .str "assistant") c :: tail)

/-- The message-preparation block of `invokeAIModel`'s Anthropic branch
(lines binding `promptMessages` and `systemPrompt`).  Returns
`(systemPrompt, promptMessages)` as they are placed into the
`client.messages.create` call; `none` models a thrown `TypeError`. -/
def prepareAnthropicMessages (messages : JSValue) : Option (JSValue × JSValue) :=
  match messages with
  | .str s => some (.str "", .str s)
  | .arr [] => some (.str "", .arr [])
  | .arr (first :: rest) =>
    match getProp first "role" with
    | none => none
    | some r =>
      if truthy r then
        match getProp first "content" with
        | none => none
        | some c =>
          if truthy c then
            match jsFindSystemRole (first :: rest) with
            | none => none
            | some found =>
              let systemPrompt :=
                match found with
                | some m => getPropD m "content"
                | none => .str ""
              match anthTurns (first :: rest) with
              | none => none
              | some turns => some (systemPrompt, .arr turns)
          else some (.str "", .arr (first :: rest))
      else some (.str "", .arr (first :: rest))
  | v =>
    match getProp v "system" with
    | none => none
    | some sys =>
      if truthy sys then
        some (sys, getPropD v "messages")
      else if truthy (getPropD v "messages") then
        some (.str "", getPropD v "messages")
      else
        some (.str "", .undefined)

/-- Request payload of the Anthropic `client.messages.create` call. -/
structure AnthropicPayload where
  model : String
  max_tokens : Int
  temperature : ℚ
  system : JSValue
  messages : JSValue

/-- Payload construction of the Anthropic branch of `invokeAIModel`:
`model: options.model || process.env.MODEL || 'claude-3-7-sonnet-20250219'`,
`max_tokens: options.maxTokens || parseInt(process.env.MAX_TOKENS || '64000')`,
`temperature: options.temperature || parseFloat(process.env.TEMPERATURE || '0.2')`. -/
def mkAnthropicPayload (system promptMessages : JSValue) (options : Options)
    (env : Env) : AnthropicPayload :=
  { model :=
      match strOr options.model env.MODEL with
      | some m => if m ≠ "" then m else "claude-3-7-sonnet-20250219"
      | none => "claude-3-7-sonnet-20250219"
    max_tokens := numOr options.maxTokens (envMaxTokens env)
    temperature := ratOr options.temperature (envTemperature env)
    system := system
    messages := promptMessages }

/-! ### Statement-side helper definitions -/

/-- A neutral `(role, content)` pair rendered as the message object the
application passes in. -/
def neutralMsg (p : String × String) : JSValue :=
  mkMsg (.str p.1) (.str p.2)

/-- A neutral message list rendered as a JavaScript array. -/
def neutralList (ms : List (String × String)) : JSValue :=
  .arr (ms.map neutralMsg)

/-- The Anthropic-native turn the `invokeAIModel` mapping produces for a
neutral `(role, content)` pair. -/
def anthTurnOf (p : String × String) : JSValue :=
  mkMsg (.str (if p.1 = "user" then "human" else "assistant")) (.str p.2)

/-- The system string the Anthropic branch keeps: the content of the first
`system`-role message, or the empty string. -/
def sysFieldOf (ms : List (String × String)) : JSValue :=
  match ms.find? (fun p => p.1 == "system") with
  | some p => .str p.2
  | none => .str ""

/-- The GenericChat-native turn the `system`/`messages` branch of
`convertToOpenAIMessages` produces for a neutral `(role, content)` pair. -/
def openAITurnOf (p : String × String) : JSValue :=
  mkMsg (.str (if p.1 = "human" then "user" else p.1)) (.str p.2)

/-- A well-formed GenericChat completion body whose single choice carries
`content`. -/
def goodResponse (content : String) : JSValue :=
  .obj [("choices", .arr [.obj [("message", .obj [("content", .str content)])]])]

/-- `null` or `undefined`. -/
def isNullish : JSValue → Bool
  | .null => true
  | .undefined => true
  | _ => false

/-- Characterization of the inputs on which `convertToOpenAIMessages`
performs a property access on `null`/`undefined` (and hence throws):
`null`/`undefined` themselves, an array whose first element is nullish,
or a matched `system`/`messages` object whose inner messages array
contains a nullish element. -/
def nullAccess (v : JSValue) : Bool :=
  match v with
  | .null => true
  | .undefined => true
  | .str _ => false
  | .arr [] => false
  | .arr (first :: _) => isNullish first
  | w =>
    if truthy (getPropD w "role") && truthy (getPropD w "content") then false
    else if truthy (getPropD w "system") && truthy (getPropD w "messages") then
      match getPropD w "messages" with
      | .arr inner => inner.any isNullish
      | _ => false
    else false

/-- An environment with no AI configuration at all. -/
def env0 : Env :=
  ⟨none, none, none, none, none, none, none⟩

/-! ### Lemmas -/

theorem altRoles_map_str (ss : List String) :
    ∀ i, altRoles i (ss.map JSValue.str) =
      (List.enumFrom i ss).map
        (fun p => mkMsg (.str (if p.1 % 2 = 0 then "user" else "assistant")) (.str p.2)) := by
  induction ss with
  | nil => intro i; rfl
  | cons s t ih => intro i; simp [altRoles, List.enumFrom, ih]

theorem optTruthy_false_cases {o : Option String} (h : optTruthy o = false) :
    o = none ∨ o = some "" := by
  cases o with
  | none => exact Or.inl rfl
  | some s =>
    simp [optTruthy] at h
    exact Or.inr (by rw [h])

theorem selectProvider_fallthrough (ov : Option String) (env : Env)
    (hov : optTruthy ov = false) (hpin : optTruthy env.AI_PROVIDER = false) :
    selectProvider ov env = (determineAIProvider env).1 := by
  rcases optTruthy_false_cases hov with h1 | h1 <;>
    rcases optTruthy_false_cases hpin with h2 | h2 <;>
      subst h1 <;> simp [selectProvider, h2]

/-! ### Claims -/

/-- **C4** (confirmed).  Provider selection follows the precedence: an
explicit non-empty override argument wins; otherwise a non-empty pinned
`AI_PROVIDER`; otherwise a configured GenericChat base URL forces
`openai_compatible` even when an Anthropic credential is also set;
otherwise an Anthropic credential gives `anthropic`; otherwise the
default is `openai_compatible` and the fallback logs at level `warn`
rather than failing. -/
theorem claim4_provider_precedence (ov : Option String) (env : Env) :
    (∀ s, ov = some s → s ≠ "" → selectProvider ov env = s) ∧
    (optTruthy ov = false → ∀ q, env.AI_PROVIDER = some q → q ≠ "" →
      selectProvider ov env = q) ∧
    (optTruthy ov = false → optTruthy env.AI_PROVIDER = false →
      optTruthy env.OPENAI_API_BASE_URL = true →
      selectProvider ov env = "openai_compatible") ∧
    (optTruthy ov = false → optTruthy env.AI_PROVIDER = false →
      optTruthy env.OPENAI_API_BASE_URL = false →
      optTruthy env.ANTHROPIC_API_KEY = true →
      selectProvider ov env = "anthropic") ∧
    (optTruthy ov = false → optTruthy env.AI_PROVIDER = false →
      optTruthy env.OPENAI_API_BASE_URL = false →
      optTruthy env.ANTHROPIC_API_KEY = false →
      selectProvider ov env = "openai_compatible" ∧
        (determineAIProvider env).2 = "warn") := by
  refine ⟨?_, ?_, ?_, ?_, ?_⟩
  · rintro s rfl hs
    simp [selectProvider, hs]
  · intro hov q hq hqne
    rcases optTruthy_false_cases hov with h1 | h1 <;> subst h1 <;>
      simp [selectProvider, hq, hqne]
  · intro hov hpin hbase
    rw [selectProvider_fallthrough ov env hov hpin]
    simp [determineAIProvider, hbase]
  · intro hov hpin hbase hanth
    rw [selectProvider_fallthrough ov env hov hpin]
    simp [determineAIProvider, hbase, hanth]
  · intro hov hpin hbase hanth
    rw [selectProvider_fallthrough ov env hov hpin]
    simp [determineAIProvider, hbase, hanth]

/-- Witness for C4: each precedence level exercised on a concrete
environment. -/
theorem claim4_provider_precedence_witness :
    selectProvider (some "anthropic")
      ⟨some "http://localhost:11434/v1", none, some "sk-ant", none, none, none, none⟩ =
      "anthropic" ∧
    selectProvider none
      ⟨some "http://localhost:11434/v1", none, none, some "anthropic", none, none, none⟩ =
      "anthropic" ∧
    selectProvider none
      ⟨some "http://localhost:11434/v1", none, some "sk-ant", none, none, none, none⟩ =
      "openai_compatible" ∧
    selectProvider none ⟨none, none, some "sk-ant", none, none, none, none⟩ =
      "anthropic" ∧
    selectProvider none env0 = "openai_compatible" ∧
    (determineAIProvider env0).2 = "warn" := by
  refine ⟨?_, ?_, ?_, ?_, ?_, ?_⟩
  · exact (claim4_provider_precedence (some "anthropic")
      ⟨some "http://localhost:11434/v1", none, some "sk-ant", none, none, none, none⟩).1
      "anthropic" rfl (by decide)
  · exact (claim4_provider_precedence none
      ⟨some "http://localhost:11434/v1", none, none, some "anthropic", none, none, none⟩).2.1
      (by decide) "anthropic" rfl (by decide)
  · exact (claim4_provider_precedence none
      ⟨some "http://localhost:11434/v1", none, some "sk-ant", none, none, none, none⟩).2.2.1
      (by decide) (by decide) (by decide)
  · exact (claim4_provider_precedence none
      ⟨none, none, some "sk-ant", none, none, none, none⟩).2.2.2.1
      (by decide) (by decide) (by decide) (by decide)
  · exact ((claim4_provider_precedence none env0).2.2.2.2
      (by decide) (by decide) (by decide) (by decide)).1
  · exact ((claim4_provider_precedence none env0).2.2.2.2
      (by decide) (by decide) (by decide) (by decide)).2

/-- **C8** (confirmed).  A sequence of bare strings is given alternating
roles: `user` at every even index, `assistant` at every odd index, with
the contents kept in their input order. -/
theorem claim8_alternating_roles (ss : List String) :
    convertToOpenAIMessages (.arr (ss.map JSValue.str)) =
      some (.arr (ss.enum.map
        (fun p => mkMsg (.str (if p.1 % 2 = 0 then "user" else "assistant"))
          (.str p.2)))) := by
  cases ss with
  | nil => rfl
  | cons s t =>
    simp only [List.map_cons, convertToOpenAIMessages, getProp, truthy]
    simp only [List.enum]
    rw [show (JSValue.str s :: t.map JSValue.str) =
      ((s :: t).map JSValue.str) from rfl, altRoles_map_str]
    simp

/-- **C10** (confirmed).  An explicitly supplied `temperature: 0` or
`maxTokens: 0` is falsy, so both payload builders fall back to the
environment-configured (or hardcoded) default instead of the explicit
value. -/
theorem claim10_falsy_options_ignored (m p : Option String) (env : Env)
    (msgs sys pm : JSValue) :
    (mkOpenAIPayload msgs ⟨m, some 0, some 0, p⟩ env).max_tokens = envMaxTokens env ∧
    (mkOpenAIPayload msgs ⟨m, some 0, some 0, p⟩ env).temperature = envTemperature env ∧
    (mkAnthropicPayload sys pm ⟨m, some 0, some 0, p⟩ env).max_tokens = envMaxTokens env ∧
    (mkAnthropicPayload sys pm ⟨m, some 0, some 0, p⟩ env).temperature =
      envTemperature env := by
  refine ⟨?_, ?_, ?_, ?_⟩ <;> simp [mkOpenAIPayload, mkAnthropicPayload, numOr, ratOr]

/-- Counterexample to **C7** as stated: for the Anthropic provider the bare
string `"hello"` is passed through unchanged as the `messages` payload —
no `\x7b role, content \x7d` turn object is constructed — while the
GenericChat path does construct the single User turn. -/
theorem claim7_counterexample :
    convertToOpenAIMessages (.str "hello") =
      some (.arr [mkMsg (.str "user") (.str "hello")]) ∧
    prepareAnthropicMessages (.str "hello") = some (.str "", .str "hello") ∧
    JSValue.str "hello" ≠ .arr [mkMsg (.str "human") (.str "hello")] ∧
    JSValue.str "hello" ≠ .arr [mkMsg (.str "user") (.str "hello")] := by
  refine ⟨rfl, rfl, ?_, ?_⟩ <;> intro h <;> exact JSValue.noConfusion h

/-- **C7** (corrected).  For a bare string input the GenericChat path
constructs exactly one User turn and no system turn; the Anthropic path
sets an empty system string but passes the bare string through as the
`messages` payload without constructing any turn object. -/
theorem claim7_bare_string (s : String) :
    convertToOpenAIMessages (.str s) = some (.arr [mkMsg (.str "user") (.str s)]) ∧
    prepareAnthropicMessages (.str s) = some (.str "", .str s) :=
  ⟨rfl, rfl⟩

theorem getProp_neutralMsg_role (p : String × String) :
    getProp (neutralMsg p) "role" = some (.str p.1) := rfl

theorem getProp_neutralMsg_content (p : String × String) :
    getProp (neutralMsg p) "content" = some (.str p.2) := rfl

theorem getPropD_neutralMsg_content (p : String × String) :
    getPropD (neutralMsg p) "content" = .str p.2 := rfl

theorem jsStrictEqStr_str (t s : String) :
    jsStrictEqStr (.str t) s = decide (t = s) := rfl

theorem mapOpenAIRole_str (x : String) :
    mapOpenAIRole (.str x) = .str (if x = "human" then "user" else x) := by
  by_cases h1 : x = "human"
  · subst h1; simp [mapOpenAIRole, jsStrictEqStr]
  · by_cases h2 : x = "assistant"
    · subst h2; simp [mapOpenAIRole, jsStrictEqStr]
    · simp [mapOpenAIRole, jsStrictEqStr, h1, h2]

theorem jsFindSystemRole_neutral (ms : List (String × String)) :
    jsFindSystemRole (ms.map neutralMsg) =
      some ((ms.find? (fun p => p.1 == "system")).map neutralMsg) := by
  induction ms with
  | nil => rfl
  | cons p t ih =>
    by_cases h : p.1 = "system"
    · simp [jsFindSystemRole, getProp_neutralMsg_role, jsStrictEqStr, h,
        List.find?_cons_of_pos]
    · simp only [List.map_cons, jsFindSystemRole, getProp_neutralMsg_role]
      rw [List.find?_cons_of_neg _ (by simpa using h)]
      simp [jsStrictEqStr, h, ih]

theorem anthTurns_neutral (ms : List (String × String)) :
    anthTurns (ms.map neutralMsg) =
      some ((ms.filter (fun p => !(p.1 == "system"))).map anthTurnOf) := by
  induction ms with
  | nil => rfl
  | cons p t ih =>
    by_cases h : p.1 = "system"
    · simp only [List.map_cons, anthTurns, getProp_neutralMsg_role]
      rw [List.filter_cons_of_neg (by simpa using h)]
      simp [jsStrictEqStr, h, ih]
    · simp only [List.map_cons, anthTurns, getProp_neutralMsg_role,
        getProp_neutralMsg_content]
      rw [List.filter_cons_of_pos (by simpa using h)]
      by_cases hu : p.1 = "user" <;> simp [jsStrictEqStr, h, hu, ih, anthTurnOf]

theorem convertInner_neutral (ms : List (String × String)) :
    convertInner (ms.map neutralMsg) =
      some ((ms.filter (fun p => p.1 != "" && p.2 != "")).map openAITurnOf) := by
  induction ms with
  | nil => rfl
  | cons p t ih =>
    by_cases hr : p.1 = ""
    · simp only [List.map_cons, convertInner, getProp_neutralMsg_role]
      rw [List.filter_cons_of_neg (by simp [hr])]
      simp [truthy, hr, ih]
    · by_cases hc : p.2 = ""
      · simp only [List.map_cons, convertInner, getProp_neutralMsg_role,
          getProp_neutralMsg_content]
        rw [List.filter_cons_of_neg (by simp [hc])]
        simp [truthy, hr, hc, ih]
      · simp only [List.map_cons, convertInner, getProp_neutralMsg_role,
          getProp_neutralMsg_content]
        rw [List.filter_cons_of_pos (by simp [hr, hc])]
        simp [truthy, hr, hc, ih, openAITurnOf, mapOpenAIRole_str]

/-- Counterexample to **C1** as stated: with two System messages
(contents `"A"` and `"B"`), the Anthropic branch keeps only the first
content `"A"` as the system field — the second content `"B"` does not
occur in it at all, so the contents are not concatenated. -/
theorem claim1_counterexample :
    prepareAnthropicMessages
        (neutralList [("system", "A"), ("system", "B"), ("user", "hi")]) =
      some (.str "A", .arr [mkMsg (.str "human") (.str "hi")]) ∧
    strContains "A" "B" = false :=
  ⟨rfl, rfl⟩

/-- **C1** (corrected).  For a neutral message list (first message with
non-empty role and content), the Anthropic branch takes the content of the
*first* System message as the system field (empty if none), removes every
System message from the turn list, and emits the remaining turns in their
original relative order; no emitted turn carries the `system` role. -/
theorem claim1_system_extraction (r c : String) (rest : List (String × String))
    (hr : r ≠ "") (hc : c ≠ "") :
    prepareAnthropicMessages (neutralList ((r, c) :: rest)) =
      some (sysFieldOf ((r, c) :: rest),
        .arr ((((r, c) :: rest).filter (fun p => !(p.1 == "system"))).map anthTurnOf)) ∧
    (∀ m ∈ (((r, c) :: rest).filter (fun p => !(p.1 == "system"))).map anthTurnOf,
      getPropD m "role" ≠ .str "system") := by
  have hfind := jsFindSystemRole_neutral ((r, c) :: rest)
  have hturns := anthTurns_neutral ((r, c) :: rest)
  simp only [List.map_cons] at hfind hturns
  constructor
  · rcases hf : List.find? (fun p => p.1 == "system") ((r, c) :: rest) with _ | p
    · rw [hf] at hfind
      simp only [Option.map_none'] at hfind
      simp [neutralList, prepareAnthropicMessages, truthy, hr, hc, hfind, hturns,
        sysFieldOf, hf, getProp_neutralMsg_role, getProp_neutralMsg_content]
    · rw [hf] at hfind
      simp only [Option.map_some'] at hfind
      simp [neutralList, prepareAnthropicMessages, truthy, hr, hc, hfind, hturns,
        sysFieldOf, hf, getProp_neutralMsg_role, getProp_neutralMsg_content,
        getPropD_neutralMsg_content]
  · intro m hm
    rcases List.mem_map.mp hm with ⟨p, _, rfl⟩
    by_cases hu : p.1 = "user" <;>
      simp [anthTurnOf, getPropD, getProp, mkMsg, lookupProp, hu]

/-- Witness for C1: a System message followed by a User message. -/
theorem claim1_system_extraction_witness :
    prepareAnthropicMessages (neutralList [("system", "S"), ("user", "hi")]) =
      some (.str "S", .arr [mkMsg (.str "human") (.str "hi")]) :=
  (claim1_system_extraction "system" "S" [("user", "hi")]
    (by decide) (by decide)).1

/-- Counterexample to **C5** as stated: an input with only a `system`
field (no `messages` field) does not match the structured shape — the
whole object is stringified into a single User message instead of
producing a system message. -/
theorem claim5_counterexample :
    convertToOpenAIMessages (.obj [("system", .str "S")]) =
      some (.arr [mkMsg (.str "user") (.str "\x7b\"system\":\"S\"\x7d")]) ∧
    (JSValue.arr [mkMsg (.str "user") (.str "\x7b\"system\":\"S\"\x7d")]) ≠
      .arr [mkMsg (.str "system") (.str "S")] := by
  refine ⟨rfl, ?_⟩
  intro h
  simp [mkMsg] at h

/-- **C5** (corrected).  Only when the `system` field is truthy (non-empty)
*and* a `messages` field is present does the structured shape match; the
output is then the system message followed by the inner turns in order,
with role `human` mapped to `user` and turns with falsy role or content
dropped. -/
theorem claim5_structured_shape (sys : String) (inner : List (String × String))
    (hs : sys ≠ "") :
    convertToOpenAIMessages
        (.obj [("system", .str sys), ("messages", .arr (inner.map neutralMsg))]) =
      some (.arr (mkMsg (.str "system") (.str sys) ::
        (inner.filter (fun p => p.1 != "" && p.2 != "")).map openAITurnOf)) := by
  have hinner := convertInner_neutral inner
  simp [convertToOpenAIMessages, getProp, lookupProp, getPropD, truthy, hs, hinner]

/-- Witness for C5: the spec's own example `\x7b system: "S", messages:
[\x7b role: "user", content: "hi" \x7d] \x7d`. -/
theorem claim5_structured_shape_witness :
    convertToOpenAIMessages
        (.obj [("system", .str "S"),
          ("messages", .arr [mkMsg (.str "user") (.str "hi")])]) =
      some (.arr [mkMsg (.str "system") (.str "S"),
        mkMsg (.str "user") (.str "hi")]) :=
  claim5_structured_shape "S" [("user", "hi")] (by decide)

theorem dropWhileHeadNot (p : Char → Bool) :
    ∀ (l : List Char) (c : Char), (l.dropWhile p).head? = some c → p c = false := by
  intro l
  induction l with
  | nil => intro c h; cases h
  | cons a t ih =>
    intro c h
    rw [List.dropWhile_cons] at h
    by_cases hp : p a = true
    · rw [if_pos hp] at h
      exact ih c h
    · rw [if_neg hp] at h
      injection h with h
      subst h
      simpa using hp

theorem dropWhileLastStable (p : Char → Bool) :
    ∀ (l : List Char) (c : Char),
      (l.dropWhile p).getLast? = some c → l.getLast? = some c := by
  intro l
  induction l with
  | nil => intro c h; cases h
  | cons a t ih =>
    intro c h
    rw [List.dropWhile_cons] at h
    by_cases hp : p a = true
    · rw [if_pos hp] at h
      have ht := ih c h
      cases t with
      | nil => cases ht
      | cons b t2 =>
        rw [List.getLast?_cons_cons]
        exact ht
    · rw [if_neg hp] at h
      exact h

theorem jsTrim_data (s : String) :
    (jsTrim s).data =
      ((s.data.dropWhile isJsWS).reverse.dropWhile isJsWS).reverse := rfl

theorem jsTrim_head (s : String) (c : Char)
    (h : (jsTrim s).data.head? = some c) : isJsWS c = false := by
  rw [jsTrim_data, List.head?_reverse] at h
  have h2 := dropWhileLastStable _ _ _ h
  rw [List.getLast?_reverse] at h2
  exact dropWhileHeadNot _ _ _ h2

theorem jsTrim_last (s : String) (c : Char)
    (h : (jsTrim s).data.getLast? = some c) : isJsWS c = false := by
  rw [jsTrim_data, List.getLast?_reverse] at h
  exact dropWhileHeadNot _ _ _ h

theorem parseChatResponse_ok_shape (d : JSValue) (s : String)
    (h : parseChatResponse d = ChatParse.ok s) :
    ∃ c, rawContent d = .str c ∧ c ≠ "" ∧ s = jsTrim c := by
  unfold parseChatResponse at h
  split at h
  case isFalse => exact ChatParse.noConfusion h
  split at h
  case isFalse => exact ChatParse.noConfusion h
  split at h
  case isFalse => exact ChatParse.noConfusion h
  split at h
  case h_1 => exact ChatParse.noConfusion h
  case h_2 msg heq =>
    split at h
    case isFalse => exact ChatParse.noConfusion h
    case isTrue hm =>
      split at h
      case h_1 => exact ChatParse.noConfusion h
      case h_2 content heq2 =>
        split at h
        case isFalse => exact ChatParse.noConfusion h
        case isTrue hc =>
          split at h
          case h_2 => exact ChatParse.noConfusion h
          case h_1 =>
            rename_i s2
            injection h with h
            refine ⟨s2, ?_, ?_, h.symm⟩
            · simp only [getPropD] at heq
              simp [rawContent, getPropD, heq, heq2]
            · simpa [truthy] using hc

/-- **C9** (confirmed).  A successful GenericChat parse returns
`choices[0].message.content` with leading and trailing whitespace
trimmed; consequently no successful result starts or ends with a
whitespace character. -/
theorem claim9_result_is_trimmed (c : String) (hc : c ≠ "") :
    parseChatResponse (goodResponse c) = ChatParse.ok (jsTrim c) ∧
    (∀ (d : JSValue) (s : String), parseChatResponse d = ChatParse.ok s →
      (∀ ch, s.data.head? = some ch → isJsWS ch = false) ∧
      (∀ ch, s.data.getLast? = some ch → isJsWS ch = false)) := by
  constructor
  · simp [parseChatResponse, goodResponse, getPropD, getProp, lookupProp, truthy,
      jsIndex0, lengthOf, jsGtZero, jsToNumber, hc]
  · intro d s h
    rcases parseChatResponse_ok_shape d s h with ⟨raw, _, _, hs⟩
    subst hs
    exact ⟨fun ch hch => jsTrim_head raw ch hch,
      fun ch hch => jsTrim_last raw ch hch⟩

/-- Witness for C9: a content with surrounding whitespace parses to the
trimmed string, whose edges are not whitespace. -/
theorem claim9_result_is_trimmed_witness :
    parseChatResponse (goodResponse "  hi ") = ChatParse.ok (jsTrim "  hi ") ∧
    jsTrim "  hi " = "hi" ∧ isJsWS 'h' = false ∧ isJsWS 'i' = false := by
  refine ⟨(claim9_result_is_trimmed "  hi " (by decide)).1, ?_, ?_, ?_⟩ <;> decide

/-- Counterexample to **C2** as stated: the body `\x7b"choices":[null]\x7d`
has no `choices[0].message.content`, yet the failure is a `TypeError`
raised while reading `.message` of `null` — re-thrown by the `catch`
block as a generic `'Error setting up request: ...'` — and not the
distinct `'Unexpected API response format'` error. -/
theorem claim2_counterexample :
    parseChatResponse (.obj [("choices", .arr [JSValue.null])]) =
      ChatParse.typeErr ∧
    ChatParse.typeErr ≠ ChatParse.malformed := by
  exact ⟨rfl, by decide⟩

/-- **C2** (corrected).  A malformed body is never silently coerced: the
parse returns a string only when a non-empty string actually sits at
`choices[0].message.content` (and then returns exactly its trim).  When
the guard chain itself detects the absence — a body with no `choices`,
an empty `choices` array, a falsy `choices[0].message` (including a
`null`/`undefined` message, whose `.content` is short-circuited away),
or an empty-string content — the distinct
`'Unexpected API response format'` error is thrown; but a body whose
`choices[0]` itself is `null`/`undefined` despite a positive length
fails with a `TypeError` instead of the distinct error. -/
theorem claim2_no_silent_coercion :
    (∀ (d : JSValue) (s : String), parseChatResponse d = ChatParse.ok s →
      ∃ c, rawContent d = .str c ∧ c ≠ "" ∧ s = jsTrim c) ∧
    parseChatResponse (.obj [("model", .str "m")]) = ChatParse.malformed ∧
    parseChatResponse (.obj [("choices", .arr [])]) = ChatParse.malformed ∧
    parseChatResponse (.obj [("choices", .arr [.obj [("message", JSValue.null)]])]) =
      ChatParse.malformed ∧
    parseChatResponse (.obj [("choices", .arr [.obj [("message", JSValue.undefined)]])]) =
      ChatParse.malformed ∧
    parseChatResponse (goodResponse "") = ChatParse.malformed := by
  exact ⟨parseChatResponse_ok_shape, rfl, rfl, rfl, rfl, rfl⟩

/-- Witness for C2: a well-formed body with content `" x "` parses to a
string, and the characterization recovers the raw content. -/
theorem claim2_no_silent_coercion_witness :
    ∃ c, rawContent (goodResponse " x ") = .str c ∧ c ≠ "" ∧ "x" = jsTrim c :=
  claim2_no_silent_coercion.1 (goodResponse " x ") "x" (by decide)

/-- Counterexample to **C3** as stated: an HTTP 429 failure (message
`API error (429): \x7b\x7d`) is not mapped to any RateLimited error kind;
`handleOpenAICompatibleError` returns its generic default message, which
mentions no rate limiting at all. -/
theorem claim3_counterexample :
    handleOpenAICompatibleError (apiErrorMessage 429 "\x7b\x7d") env0 =
      "Error communicating with AI service: API error (429): \x7b\x7d" ∧
    strContains (handleOpenAICompatibleError (apiErrorMessage 429 "\x7b\x7d") env0)
      "Rate" = false ∧
    strContains (handleOpenAICompatibleError (apiErrorMessage 429 "\x7b\x7d") env0)
      "rate" = false := by
  refine ⟨?_, ?_, ?_⟩ <;> decide

/-- **C3** (corrected).  There is no RateLimited classification.  A failure
message matching none of the heuristics (`'Network error'`, `'401'`,
`'403'`, `'model'`) — as an HTTP 429 error message typically does not —
falls to the generic default branch, which preserves the original message
(and hence the status code) only inside the returned text; the Anthropic
path merely prefixes the original message, also without classification. -/
theorem claim3_rate_limit_not_classified (msg : String) (env : Env)
    (h1 : strContains msg "Network error" = false)
    (h2 : strContains msg "401" = false)
    (h3 : strContains msg "403" = false)
    (h4 : strContains msg "model" = false) :
    handleOpenAICompatibleError msg env =
      "Error communicating with AI service: " ++ msg ∧
    anthropicErrorMessage msg = "Anthropic API error: " ++ msg := by
  unfold handleOpenAICompatibleError anthropicErrorMessage
  simp [h1, h2, h3, h4]

/-- Witness for C3: the 429 message from the GenericChat client. -/
theorem claim3_rate_limit_not_classified_witness :
    handleOpenAICompatibleError (apiErrorMessage 429 "\x7b\x7d") env0 =
      "Error communicating with AI service: " ++ apiErrorMessage 429 "\x7b\x7d" ∧
    anthropicErrorMessage (apiErrorMessage 429 "\x7b\x7d") =
      "Anthropic API error: " ++ apiErrorMessage 429 "\x7b\x7d" :=
  claim3_rate_limit_not_classified (apiErrorMessage 429 "\x7b\x7d") env0
    (by decide) (by decide) (by decide) (by decide)

theorem convertInner_none_iff (l : List JSValue) :
    convertInner l = none ↔ l.any isNullish = true := by
  induction l with
  | nil => simp [convertInner]
  | cons m rest ih =>
    cases m with
    | null => simp [convertInner, getProp, isNullish]
    | undefined => simp [convertInner, getProp, isNullish]
    | str s => simp [convertInner, getProp, truthy, isNullish, ih]
    | num n => simp [convertInner, getProp, truthy, isNullish, ih]
    | bool b => simp [convertInner, getProp, truthy, isNullish, ih]
    | arr elems => simp [convertInner, getProp, truthy, isNullish, ih]
    | obj props =>
      simp only [convertInner, getProp, List.any_cons]
      by_cases hr : truthy (lookupProp props "role") = true
      · simp only [hr, if_true]
        by_cases hc : truthy (lookupProp props "content") = true
        · simp only [hc, if_true]
          cases hrest : convertInner rest with
          | none =>
            simp only [isNullish, Bool.false_or]
            rw [← ih]
            simp [hrest]
          | some tail =>
            simp only [isNullish, Bool.false_or]
            rw [← ih]
            simp [hrest]
        · simp only [hc, if_false]
          simp [isNullish, ih]
      · simp only [hr, if_false]
        simp [isNullish, ih]

/-- Counterexample to **C6** as stated: on input `null` the normalizer
reads `null.role` and throws a `TypeError` instead of stringifying the
input into a User message. -/
theorem claim6_counterexample : convertToOpenAIMessages JSValue.null = none := rfl

/-- **C6** (corrected).  The normalizer throws exactly when it reads a
property of `null`/`undefined`: on inputs `null`/`undefined` themselves,
on an array whose first element is `null`/`undefined`, and on a matched
`system`/`messages` object whose inner message array contains a
`null`/`undefined` element.  Every other input yields a message list, and
a non-array non-string input matching neither the single-message shape
nor the `system`/`messages` shape is stringified into a single User
message. -/
theorem claim6_throw_characterization :
    (∀ v : JSValue, (convertToOpenAIMessages v).isNone = nullAccess v) ∧
    (∀ props : List (String × JSValue),
      (truthy (getPropD (.obj props) "role") &&
        truthy (getPropD (.obj props) "content")) = false →
      (truthy (getPropD (.obj props) "system") &&
        truthy (getPropD (.obj props) "messages")) = false →
      convertToOpenAIMessages (.obj props) =
        some (.arr [mkMsg (.str "user") (.str (jsonStringify (.obj props)))])) ∧
    (∀ n : Int, convertToOpenAIMessages (.num n) =
      some (.arr [mkMsg (.str "user") (.str (jsonStringify (.num n)))])) ∧
    (∀ b : Bool, convertToOpenAIMessages (.bool b) =
      some (.arr [mkMsg (.str "user") (.str (jsonStringify (.bool b)))])) := by
  refine ⟨?_, ?_, ?_, ?_⟩
  · intro v
    cases v with
    | null => rfl
    | undefined => rfl
    | str s => rfl
    | num n => rfl
    | bool b => rfl
    | arr elems =>
      cases elems with
      | nil => rfl
      | cons first rest =>
        cases first with
        | null => rfl
        | undefined => rfl
        | str s => rfl
        | num n =>
          simp [convertToOpenAIMessages, getProp, truthy, nullAccess, isNullish]
        | bool b =>
          simp only [convertToOpenAIMessages, getProp, nullAccess, isNullish]
          by_cases hb : b = true <;> simp [hb, truthy]
        | arr inner =>
          simp [convertToOpenAIMessages, getProp, truthy, nullAccess, isNullish]
        | obj props =>
          simp only [convertToOpenAIMessages, getProp, nullAccess, isNullish]
          by_cases hr : truthy (lookupProp props "role") = true
          · simp only [hr, if_true]
            by_cases hc : truthy (lookupProp props "content") = true <;>
              simp [hr, hc]
          · simp [hr]
    | obj props =>
      simp only [convertToOpenAIMessages, getProp, nullAccess, getPropD,
        Option.getD_some]
      by_cases h1 : (truthy (lookupProp props "role") &&
          truthy (lookupProp props "content")) = true
      · simp [h1]
      · rw [if_neg h1, if_neg h1]
        by_cases h2 : (truthy (lookupProp props "system") &&
            truthy (lookupProp props "messages")) = true
        · rw [if_pos h2, if_pos h2]
          cases hmsgs : lookupProp props "messages" with
          | arr inner =>
            cases hcin : convertInner inner with
            | none => simp [hcin, (convertInner_none_iff inner).mp hcin]
            | some tail =>
              have hany : inner.any isNullish = false := by
                rw [← Bool.not_eq_true, ← convertInner_none_iff]
                simp [hcin]
              simp [hcin, hany]
          | null => simp
          | undefined => simp
          | str s => simp
          | num n => simp
          | bool b => simp
          | obj props2 => simp
        · rw [if_neg h2, if_neg h2]
          simp
  · intro props h1 h2
    simp only [getPropD, getProp, Option.getD_some] at h1 h2
    have h1n : ¬(truthy (lookupProp props "role") = true ∧
        truthy (lookupProp props "content") = true) := by
      rw [← Bool.and_eq_true]
      simp [h1]
    have h2n : ¬(truthy (lookupProp props "system") = true ∧
        truthy (lookupProp props "messages") = true) := by
      rw [← Bool.and_eq_true]
      simp [h2]
    simp [convertToOpenAIMessages, getProp, getPropD, h1n, h2n]
  · intro n; rfl
  · intro b; rfl

/-- Witness for C6: an object matching no recognized shape is stringified
into a single User message, and `undefined` input throws. -/
theorem claim6_throw_characterization_witness :
    convertToOpenAIMessages (.obj [("x", .num 1)]) =
      some (.arr [mkMsg (.str "user") (.str "\x7b\"x\":1\x7d")]) ∧
    (convertToOpenAIMessages JSValue.undefined).isNone =
      nullAccess JSValue.undefined := by
  constructor
  · exact claim6_throw_characterization.2.1 [("x", .num 1)] (by decide) (by decide)
  · exact claim6_throw_characterization.1 JSValue.undefined
